import Mathlib

/-!
A shallow embedding, in Lean 4, of the JSON-handling and request-building
code of this Go GitHub API client, together with theorems checking the
specification's claims against it.

Conventions of the embedding:
* Go JSON data is represented by the `Json` inductive below.  `encoding/json`
  decodes every JSON number that appears in this development into an integral
  field, so numbers are carried as `Int`.
* Go pointers (`*T`) and interface values that may be `nil` are `Option T`.
* Go's `(value, error)` returns are `Except String value` (pure decode
  helpers) or explicit products with an `Option String` error component
  (methods that also return data on error).  A Go `panic` is a distinct
  outcome constructor, since panicking and returning an error are different
  observable behaviours.
* Raw response/payload bytes are represented by their parse result: an
  `Option Json` that is `none` when the bytes are absent or not valid JSON
  (the syntactic JSON parser of `encoding/json` is standard-library code,
  not code of this repository).
-/

namespace GoGithub

/-- A decoded JSON value, as produced by Go's `encoding/json` generic decode.
All numeric fields decoded by the code under study are integral, so numbers
are carried as `Int`. -/
inductive Json where
  | null
  | bool (b : Bool)
  | num (n : Int)
  | str (s : String)
  | arr (elems : List Json)
  | obj (fields : List (String × Json))
deriving Repr

/-- Looking a key up in a decoded JSON object.  Go builds objects as maps and
decodes duplicate keys by letting the later occurrence win, so the *last*
binding of the key is returned. -/
def lookupField (fields : List (String × Json)) (k : String) : Option Json :=
  match fields with
  | [] => none
  | (k', v) :: rest =>
    match lookupField rest k with
    | some r => some r
    | none => if k' = k then some v else none

/-- Outcome of running a Go method that may return normally, return an error,
or panic. -/
inductive GoResult (α : Type) where
  | ok (a : α)
  | err (msg : String)
  | panicked (msg : String)
deriving DecidableEq, Repr

/-- Whether a `GoResult` is a returned (non-`nil`) error, as opposed to a
normal return or a panic. -/
def GoResult.isErr : GoResult α → Bool
  | .err _ => true
  | _ => false

/-! ### Generic field-decoding helpers (the semantics of `encoding/json`
for the field shapes used by this repository).

`encoding/json` decodes a JSON `null` into any field as a no-op, leaves a
field at its zero value when its key is absent, and reports an error when the
JSON value's kind does not match the field's type. -/

/-- Decode an optional JSON value into a Go `string` field (zero value `""`). -/
def getString (v : Option Json) : Except String String :=
  match v with
  | none => .ok ""
  | some .null => .ok ""
  | some (.str s) => .ok s
  | some _ => .error "json: cannot unmarshal value into Go field of type string"

/-- Decode an optional JSON value into a Go `*string` field (zero value `nil`). -/
def getOptString (v : Option Json) : Except String (Option String) :=
  match v with
  | none => .ok none
  | some .null => .ok none
  | some (.str s) => .ok (some s)
  | some _ => .error "json: cannot unmarshal value into Go field of type *string"

/-- Decode an optional JSON value into a Go `int`/`int64` field (zero value `0`). -/
def getInt (v : Option Json) : Except String Int :=
  match v with
  | none => .ok 0
  | some .null => .ok 0
  | some (.num n) => .ok n
  | some _ => .error "json: cannot unmarshal value into Go field of type int"

/-- Decode an optional JSON value into a Go `*int`/`*int64` field (zero value `nil`). -/
def getOptInt (v : Option Json) : Except String (Option Int) :=
  match v with
  | none => .ok none
  | some .null => .ok none
  | some (.num n) => .ok (some n)
  | some _ => .error "json: cannot unmarshal value into Go field of type *int64"

/-- Decode an optional JSON value into a Go `bool` field (zero value `false`). -/
def getBool (v : Option Json) : Except String Bool :=
  match v with
  | none => .ok false
  | some .null => .ok false
  | some (.bool b) => .ok b
  | some _ => .error "json: cannot unmarshal value into Go field of type bool"

/-- Decode an optional JSON value into a Go `*bool` field (zero value `nil`). -/
def getOptBool (v : Option Json) : Except String (Option Bool) :=
  match v with
  | none => .ok none
  | some .null => .ok none
  | some (.bool b) => .ok (some b)
  | some _ => .error "json: cannot unmarshal value into Go field of type *bool"

/-- Decode an optional JSON value into a Go `[]string` field (zero value `nil`;
a JSON `null` also leaves the slice `nil`, which this embedding identifies
with the empty list). -/
def getStringList (v : Option Json) : Except String (List String) :=
  match v with
  | none => .ok []
  | some .null => .ok []
  | some (.arr xs) =>
    xs.foldr
      (fun x acc =>
        match x, acc with
        | .str s, .ok rest => .ok (s :: rest)
        | _, .ok _ => .error "json: cannot unmarshal value into Go field of type string"
        | _, .error e => .error e)
      (.ok [])
  | some _ => .error "json: cannot unmarshal value into Go field of type []string"

/-- Decode each element of a JSON array with `dec`, mirroring how
`encoding/json` decodes into a Go slice (absent key and `null` leave the
slice `nil`). -/
def getListWith (dec : Json → Except String α) (v : Option Json) :
    Except String (List α) :=
  match v with
  | none => .ok []
  | some .null => .ok []
  | some (.arr xs) =>
    xs.foldr
      (fun x acc =>
        match dec x, acc with
        | .ok a, .ok rest => .ok (a :: rest)
        | .error e, _ => .error e
        | _, .error e => .error e)
      (.ok [])
  | some _ => .error "json: cannot unmarshal value into Go slice field"

/-! ### Variant decode targets

Modelled from the spec: the full catalog of per-resource struct field
definitions (`User`, `Team`, `Organization`, `Contributor`, …) is not under
`src/`; the spec (§1) treats these DTOs as "data, consumed by the core as
arbitrary decode targets".  Each is modelled with a representative set of
fields matching the shapes its callers in `src/` rely on (pointer fields with
`omitempty` JSON tags, as in the test data of the teams-discussion tests). -/

/-- Modelled from the spec: the `User` DTO (not under `src/`); representative
pointer fields with their upstream JSON keys. -/
structure User where
  login : Option String := none
  id : Option Int := none
  type : Option String := none
deriving DecidableEq, Repr

/-- Modelled from the spec: the `Team` DTO (not under `src/`); representative
pointer fields with their upstream JSON keys. -/
structure Team where
  id : Option Int := none
  name : Option String := none
  slug : Option String := none
deriving DecidableEq, Repr

/-- Modelled from the spec: the `Organization` DTO (not under `src/`);
representative pointer fields with their upstream JSON keys. -/
structure Organization where
  login : Option String := none
  id : Option Int := none
  type : Option String := none
deriving DecidableEq, Repr

/-- `encoding/json` decode of a JSON value into a fresh `User` (a JSON `null`
leaves the zero value; unknown object keys are ignored). -/
def decodeUser (j : Json) : Except String User := do
  match j with
  | .null => .ok {}
  | .obj fs =>
    let login ← getOptString (lookupField fs "login")
    let id ← getOptInt (lookupField fs "id")
    let type ← getOptString (lookupField fs "type")
    .ok { login := login, id := id, type := type }
  | _ => .error "json: cannot unmarshal value into Go value of type github.User"

/-- `encoding/json` decode of a JSON value into a fresh `Team`. -/
def decodeTeam (j : Json) : Except String Team := do
  match j with
  | .null => .ok {}
  | .obj fs =>
    let id ← getOptInt (lookupField fs "id")
    let name ← getOptString (lookupField fs "name")
    let slug ← getOptString (lookupField fs "slug")
    .ok { id := id, name := name, slug := slug }
  | _ => .error "json: cannot unmarshal value into Go value of type github.Team"

/-- `encoding/json` decode of a JSON value into a fresh `Organization`. -/
def decodeOrganization (j : Json) : Except String Organization := do
  match j with
  | .null => .ok {}
  | .obj fs =>
    let login ← getOptString (lookupField fs "login")
    let id ← getOptInt (lookupField fs "id")
    let type ← getOptString (lookupField fs "type")
    .ok { login := login, id := id, type := type }
  | _ => .error "json: cannot unmarshal value into Go value of type github.Organization"

/-! ### `CopilotSeatDetails` (`src/github/copilot.go`) -/

/-- The concrete assignee stored by `CopilotSeatDetails.UnmarshalJSON`: a
`*User`, `*Team` or `*Organization` held in the `Assignee interface{}` field. -/
inductive SeatAssignee where
  | user (u : User)
  | team (t : Team)
  | org (o : Organization)
deriving DecidableEq, Repr

/-- `CopilotSeatDetails` (copilot.go lines 45-54).  `Assignee interface{}` is
`Option SeatAssignee`: after a successful `UnmarshalJSON` it always holds one
of the three concrete variants (or `nil` in the zero value). -/
structure CopilotSeatDetails where
  assignee : Option SeatAssignee := none
  assigningTeam : Option Team := none
  pendingCancellationDate : Option String := none
  lastActivityAt : Option String := none
  lastActivityEditor : Option String := none
  createdAt : String := ""
  updatedAt : String := ""
deriving DecidableEq, Repr

/-- The `type alias CopilotSeatDetails` used for the first, generic decode
pass (copilot.go line 67): its `Assignee interface{}` holds the raw decoded
JSON value of the `assignee` key (`none` when the key is absent or `null`,
matching Go's `nil` interface in both cases). -/
structure CopilotSeatAlias where
  assignee : Option Json := none
  assigningTeam : Option Team := none
  pendingCancellationDate : Option String := none
  lastActivityAt : Option String := none
  lastActivityEditor : Option String := none
  createdAt : String := ""
  updatedAt : String := ""

/-- First decode pass of `CopilotSeatDetails.UnmarshalJSON`:
`json.Unmarshal(data, &seatDetail)` into the alias struct. -/
def decodeSeatAlias (data : Json) : Except String CopilotSeatAlias := do
  match data with
  | .null => .ok {}
  | .obj fs =>
    let assignee :=
      match lookupField fs "assignee" with
      | none => none
      | some .null => none
      | some j => some j
    let assigningTeam ←
      match lookupField fs "assigning_team" with
      | none => .ok none
      | some .null => .ok none
      | some j => (decodeTeam j).map some
    let pendingCancellationDate ← getOptString (lookupField fs "pending_cancellation_date")
    let lastActivityAt ← getOptString (lookupField fs "last_activity_at")
    let lastActivityEditor ← getOptString (lookupField fs "last_activity_editor")
    let createdAt ← getString (lookupField fs "created_at")
    let updatedAt ← getString (lookupField fs "updated_at")
    .ok { assignee := assignee, assigningTeam := assigningTeam,
          pendingCancellationDate := pendingCancellationDate,
          lastActivityAt := lastActivityAt,
          lastActivityEditor := lastActivityEditor,
          createdAt := createdAt, updatedAt := updatedAt }
  | _ => .error "json: cannot unmarshal value into Go value of type alias"

/-- `CopilotSeatDetails.UnmarshalJSON` (copilot.go lines 66-118): first a
generic decode into the alias, then a switch on the assignee's discriminator
`"type"` field with a second decode into the matching concrete type.

The Go code re-marshals the generic `map[string]interface{}` back to bytes
and unmarshals those bytes into the concrete type; marshalling a map that
itself came from a JSON decode cannot fail, and decoding the re-marshalled
bytes is decoding the same JSON object, so the model applies the concrete
decoder to the assignee's JSON value directly.

`v["type"].(string)` is an unchecked type assertion: when `"type"` holds a
non-`nil`, non-string value the Go code *panics* instead of returning an
error, which the model records as `.panicked`. -/
def unmarshalCopilotSeatDetails (data : Json) : GoResult CopilotSeatDetails :=
  match decodeSeatAlias data with
  | .error e => .err e
  | .ok seatDetail =>
    let base : CopilotSeatDetails :=
      { assignee := none
        assigningTeam := seatDetail.assigningTeam
        pendingCancellationDate := seatDetail.pendingCancellationDate
        lastActivityAt := seatDetail.lastActivityAt
        lastActivityEditor := seatDetail.lastActivityEditor
        createdAt := seatDetail.createdAt
        updatedAt := seatDetail.updatedAt }
    match seatDetail.assignee with
    | some (.obj v) =>
      match lookupField v "type" with
      | none => .err "assignee type field is not set"
      | some .null => .err "assignee type field is not set"
      | some (.str t) =>
        if t = "User" then
          match decodeUser (.obj v) with
          | .ok user => .ok { base with assignee := some (.user user) }
          | .error e => .err e
        else if t = "Team" then
          match decodeTeam (.obj v) with
          | .ok team => .ok { base with assignee := some (.team team) }
          | .error e => .err e
        else if t = "Organization" then
          match decodeOrganization (.obj v) with
          | .ok organization => .ok { base with assignee := some (.org organization) }
          | .error e => .err e
        else
          .err ("unsupported assignee type " ++ t)
      | some _ => .panicked "interface conversion: interface \x7b\x7d is not string"
    | _ => .err "unsupported assignee type"

/-- `CopilotSeatDetails.GetUser` (copilot.go lines 121-126): Go's
`(*User, bool)` return, with `nil` as `none`. -/
def CopilotSeatDetails.getUser (cp : CopilotSeatDetails) : Option User × Bool :=
  match cp.assignee with
  | some (.user u) => (some u, true)
  | _ => (none, false)

/-- `CopilotSeatDetails.GetTeam` (copilot.go lines 129-134). -/
def CopilotSeatDetails.getTeam (cp : CopilotSeatDetails) : Option Team × Bool :=
  match cp.assignee with
  | some (.team t) => (some t, true)
  | _ => (none, false)

/-- `CopilotSeatDetails.GetOrganization` (copilot.go lines 137-142). -/
def CopilotSeatDetails.getOrganization (cp : CopilotSeatDetails) :
    Option Organization × Bool :=
  match cp.assignee with
  | some (.org o) => (some o, true)
  | _ => (none, false)

/-! ### Ruleset rules (`src/unnamed/part_002`) -/

/-- `RulePatternParameters` (part_002 lines 50-57). -/
structure RulePatternParameters where
  name : Option String := none
  negate : Option Bool := none
  operator : String := ""
  pattern : String := ""
deriving DecidableEq, Repr

/-- `UpdateAllowsFetchAndMergeRuleParameters` (part_002 lines 60-62). -/
structure UpdateAllowsFetchAndMergeRuleParameters where
  updateAllowsFetchAndMerge : Bool := false
deriving DecidableEq, Repr

/-- `RequiredDeploymentEnvironmentsRuleParameters` (part_002 lines 65-67). -/
structure RequiredDeploymentEnvironmentsRuleParameters where
  requiredDeploymentEnvironments : List String := []
deriving DecidableEq, Repr

/-- `PullRequestRuleParameters` (part_002 lines 70-76). -/
structure PullRequestRuleParameters where
  dismissStaleReviewsOnPush : Bool := false
  requireCodeOwnerReview : Bool := false
  requireLastPushApproval : Bool := false
  requiredApprovingReviewCount : Int := 0
  requiredReviewThreadResolution : Bool := false
deriving DecidableEq, Repr

/-- `RuleRequiredStatusChecks` (part_002 lines 79-82). -/
structure RuleRequiredStatusChecks where
  context : String := ""
  integrationID : Option Int := none
deriving DecidableEq, Repr

/-- `RequiredStatusChecksRuleParameters` (part_002 lines 85-88). -/
structure RequiredStatusChecksRuleParameters where
  requiredStatusChecks : List RuleRequiredStatusChecks := []
  strictRequiredStatusChecksPolicy : Bool := false
deriving DecidableEq, Repr

/-- The concrete parameter structs a decoded `RulesetRule.Parameters
interface{}` can hold (one pointer type per parameterized rule kind). -/
inductive RuleParameters where
  | update (p : UpdateAllowsFetchAndMergeRuleParameters)
  | requiredDeployments (p : RequiredDeploymentEnvironmentsRuleParameters)
  | pattern (p : RulePatternParameters)
  | pullRequest (p : PullRequestRuleParameters)
  | requiredStatusChecks (p : RequiredStatusChecksRuleParameters)
deriving DecidableEq, Repr

/-- `RulesetRule` (part_002 lines 91-94).  `Parameters interface{}` is
`Option RuleParameters` (`none` = Go's `nil` interface); the constructors in
the source take non-`nil` parameter pointers, which are modelled as plain
values. -/
structure RulesetRule where
  type : String := ""
  parameters : Option RuleParameters := none
deriving DecidableEq, Repr

/-! Marshalling of the parameter structs and of `RulesetRule`, following the
struct tags in part_002 (`omitempty` pointer fields are omitted when `nil`;
Go slices are marshalled as JSON arrays). -/

/-- Marshal `UpdateAllowsFetchAndMergeRuleParameters`. -/
def marshalUpdateParams (p : UpdateAllowsFetchAndMergeRuleParameters) : Json :=
  .obj [("update_allows_fetch_and_merge", .bool p.updateAllowsFetchAndMerge)]

/-- Marshal `RequiredDeploymentEnvironmentsRuleParameters`. -/
def marshalRequiredDeploymentsParams
    (p : RequiredDeploymentEnvironmentsRuleParameters) : Json :=
  .obj [("required_deployment_environments",
         .arr (p.requiredDeploymentEnvironments.map .str))]

/-- Marshal `RulePatternParameters` (`name` and `negate` carry `omitempty`). -/
def marshalPatternParams (p : RulePatternParameters) : Json :=
  .obj ((match p.name with
         | none => []
         | some n => [("name", .str n)]) ++
        (match p.negate with
         | none => []
         | some b => [("negate", .bool b)]) ++
        [("operator", .str p.operator), ("pattern", .str p.pattern)])

/-- Marshal `PullRequestRuleParameters` (no `omitempty` tags). -/
def marshalPullRequestParams (p : PullRequestRuleParameters) : Json :=
  .obj [("dismiss_stale_reviews_on_push", .bool p.dismissStaleReviewsOnPush),
        ("require_code_owner_review", .bool p.requireCodeOwnerReview),
        ("require_last_push_approval", .bool p.requireLastPushApproval),
        ("required_approving_review_count", .num p.requiredApprovingReviewCount),
        ("required_review_thread_resolution", .bool p.requiredReviewThreadResolution)]

/-- Marshal one `RuleRequiredStatusChecks` entry (`integration_id` carries
`omitempty`). -/
def marshalRuleRequiredStatusChecks (c : RuleRequiredStatusChecks) : Json :=
  .obj ([("context", .str c.context)] ++
        (match c.integrationID with
         | none => []
         | some i => [("integration_id", .num i)]))

/-- Marshal `RequiredStatusChecksRuleParameters`. -/
def marshalRequiredStatusChecksParams
    (p : RequiredStatusChecksRuleParameters) : Json :=
  .obj [("required_status_checks",
         .arr (p.requiredStatusChecks.map marshalRuleRequiredStatusChecks)),
        ("strict_required_status_checks_policy",
         .bool p.strictRequiredStatusChecksPolicy)]

/-- Marshal the parameter value held in `Parameters interface{}`. -/
def marshalRuleParameters : RuleParameters → Json
  | .update p => marshalUpdateParams p
  | .requiredDeployments p => marshalRequiredDeploymentsParams p
  | .pattern p => marshalPatternParams p
  | .pullRequest p => marshalPullRequestParams p
  | .requiredStatusChecks p => marshalRequiredStatusChecksParams p

/-- Marshal a `RulesetRule` (`type` has tag `json:"type"`, `Parameters` has
`json:"parameters,omitempty"`, so a `nil` interface omits the key). -/
def marshalRulesetRule (r : RulesetRule) : Json :=
  .obj ([("type", .str r.type)] ++
        (match r.parameters with
         | none => []
         | some p => [("parameters", marshalRuleParameters p)]))

/-! Decoding of the concrete parameter structs (the second decode pass). -/

/-- Decode `UpdateAllowsFetchAndMergeRuleParameters` from the `parameters`
value of the rule object (absent key or `null` leaves the fresh zero value). -/
def decodeUpdateParams (j : Json) : Except String UpdateAllowsFetchAndMergeRuleParameters := do
  match j with
  | .null => .ok {}
  | .obj fs =>
    let b ← getBool (lookupField fs "update_allows_fetch_and_merge")
    .ok { updateAllowsFetchAndMerge := b }
  | _ => .error "json: cannot unmarshal value into Go value of type UpdateAllowsFetchAndMergeRuleParameters"

/-- Decode `RequiredDeploymentEnvironmentsRuleParameters`. -/
def decodeRequiredDeploymentsParams (j : Json) :
    Except String RequiredDeploymentEnvironmentsRuleParameters := do
  match j with
  | .null => .ok {}
  | .obj fs =>
    let envs ← getStringList (lookupField fs "required_deployment_environments")
    .ok { requiredDeploymentEnvironments := envs }
  | _ => .error "json: cannot unmarshal value into Go value of type RequiredDeploymentEnvironmentsRuleParameters"

/-- Decode `RulePatternParameters`. -/
def decodePatternParams (j : Json) : Except String RulePatternParameters := do
  match j with
  | .null => .ok {}
  | .obj fs =>
    let name ← getOptString (lookupField fs "name")
    let negate ← getOptBool (lookupField fs "negate")
    let operator ← getString (lookupField fs "operator")
    let pattern ← getString (lookupField fs "pattern")
    .ok { name := name, negate := negate, operator := operator, pattern := pattern }
  | _ => .error "json: cannot unmarshal value into Go value of type RulePatternParameters"

/-- Decode `PullRequestRuleParameters`. -/
def decodePullRequestParams (j : Json) : Except String PullRequestRuleParameters := do
  match j with
  | .null => .ok {}
  | .obj fs =>
    let a ← getBool (lookupField fs "dismiss_stale_reviews_on_push")
    let b ← getBool (lookupField fs "require_code_owner_review")
    let c ← getBool (lookupField fs "require_last_push_approval")
    let d ← getInt (lookupField fs "required_approving_review_count")
    let e ← getBool (lookupField fs "required_review_thread_resolution")
    .ok { dismissStaleReviewsOnPush := a, requireCodeOwnerReview := b,
          requireLastPushApproval := c, requiredApprovingReviewCount := d,
          requiredReviewThreadResolution := e }
  | _ => .error "json: cannot unmarshal value into Go value of type PullRequestRuleParameters"

/-- Decode one `RuleRequiredStatusChecks` entry. -/
def decodeRuleRequiredStatusChecks (j : Json) : Except String RuleRequiredStatusChecks := do
  match j with
  | .null => .ok {}
  | .obj fs =>
    let context ← getString (lookupField fs "context")
    let integrationID ← getOptInt (lookupField fs "integration_id")
    .ok { context := context, integrationID := integrationID }
  | _ => .error "json: cannot unmarshal value into Go value of type RuleRequiredStatusChecks"

/-- Decode `RequiredStatusChecksRuleParameters`. -/
def decodeRequiredStatusChecksParams (j : Json) :
    Except String RequiredStatusChecksRuleParameters := do
  match j with
  | .null => .ok {}
  | .obj fs =>
    let checks ← getListWith decodeRuleRequiredStatusChecks
      (lookupField fs "required_status_checks")
    let strict ← getBool (lookupField fs "strict_required_status_checks_policy")
    .ok { requiredStatusChecks := checks, strictRequiredStatusChecksPolicy := strict }
  | _ => .error "json: cannot unmarshal value into Go value of type RequiredStatusChecksRuleParameters"

/-- First decode pass of `RulesetRule.UnmarshalJSON`:
`json.Unmarshal(data, &rulesetRule)` into `type rule RulesetRule`, whose
`Parameters interface{}` field decodes generically and cannot fail, so only
the decoded `Type` string is returned. -/
def decodeRuleType (data : Json) : Except String String :=
  match data with
  | .null => .ok ""
  | .obj fs => getString (lookupField fs "type")
  | _ => .error "json: cannot unmarshal value into Go value of type rule"

/-- Run the second decode pass of `RulesetRule.UnmarshalJSON` for a
parameterized rule kind: `rulesetRule.Parameters` is pointed at a fresh
concrete struct and `data` is decoded again, so the `parameters` key (absent:
fresh zero struct stays; `null`: the interface field is reset to `nil`;
object: decoded into the struct) determines the stored parameters. -/
def secondPassWith (wrap : α → RuleParameters) (dec : Json → Except String α)
    (zero : α) (data : Json) : Except String (Option RuleParameters) :=
  match data with
  | .obj fs =>
    match lookupField fs "parameters" with
    | none => .ok (some (wrap zero))
    | some .null => .ok none
    | some j => (dec j).map (fun p => some (wrap p))
  | _ => .ok (some (wrap zero))

/-- `RulesetRule.UnmarshalJSON` (part_002 lines 98-147), as a transformer of
the receiver `rsr`: returns the receiver's final state together with the
returned error (`none` = `nil`).  When the first decode pass fails the
receiver is untouched; an unrecognized type resets the receiver to
`Type = ""`, `Parameters = nil` and returns an error. -/
def unmarshalRulesetRule (data : Json) (rsr : RulesetRule) :
    RulesetRule × Option String :=
  match decodeRuleType data with
  | .error e => (rsr, some e)
  | .ok t =>
    let rsr := { rsr with type := t }
    if t = "creation" ∨ t = "deletion" ∨ t = "required_linear_history" ∨
        t = "required_signatures" ∨ t = "non_fast_forward" then
      ({ rsr with parameters := none }, none)
    else if t = "update" then
      match secondPassWith .update decodeUpdateParams {} data with
      | .ok p => ({ rsr with parameters := p }, none)
      | .error e => (rsr, some e)
    else if t = "required_deployments" then
      match secondPassWith .requiredDeployments decodeRequiredDeploymentsParams {} data with
      | .ok p => ({ rsr with parameters := p }, none)
      | .error e => (rsr, some e)
    else if t = "commit_message_pattern" ∨ t = "commit_author_email_pattern" ∨
        t = "committer_email_pattern" ∨ t = "branch_name_pattern" ∨
        t = "tag_name_pattern" then
      match secondPassWith .pattern decodePatternParams {} data with
      | .ok p => ({ rsr with parameters := p }, none)
      | .error e => (rsr, some e)
    else if t = "pull_request" then
      match secondPassWith .pullRequest decodePullRequestParams {} data with
      | .ok p => ({ rsr with parameters := p }, none)
      | .error e => (rsr, some e)
    else if t = "required_status_checks" then
      match secondPassWith .requiredStatusChecks decodeRequiredStatusChecksParams {} data with
      | .ok p => ({ rsr with parameters := p }, none)
      | .error e => (rsr, some e)
    else
      (⟨"", none⟩, some "rulesetRule.Type string is not yet implemented, unable to unmarshal")

/-! The rule constructors (part_002 lines 150-253). -/

/-- `NewCreationRule`. -/
def NewCreationRule : RulesetRule := { type := "creation" }

/-- `NewUpdateRule` (parameter pointer modelled as a value). -/
def NewUpdateRule (params : UpdateAllowsFetchAndMergeRuleParameters) : RulesetRule :=
  { type := "update", parameters := some (.update params) }

/-- `NewDeletionRule`. -/
def NewDeletionRule : RulesetRule := { type := "deletion" }

/-- `NewRequiredLinearHistoryRule`. -/
def NewRequiredLinearHistoryRule : RulesetRule := { type := "required_linear_history" }

/-- `NewRequiredDeploymentsRule`. -/
def NewRequiredDeploymentsRule (params : RequiredDeploymentEnvironmentsRuleParameters) :
    RulesetRule :=
  { type := "required_deployments", parameters := some (.requiredDeployments params) }

/-- `NewRequiredSignaturesRule`. -/
def NewRequiredSignaturesRule : RulesetRule := { type := "required_signatures" }

/-- `NewPullRequestRule`. -/
def NewPullRequestRule (params : PullRequestRuleParameters) : RulesetRule :=
  { type := "pull_request", parameters := some (.pullRequest params) }

/-- `NewRequiredStatusChecksRule`. -/
def NewRequiredStatusChecksRule (params : RequiredStatusChecksRuleParameters) :
    RulesetRule :=
  { type := "required_status_checks", parameters := some (.requiredStatusChecks params) }

/-- `NewNonFastForwardRule`. -/
def NewNonFastForwardRule : RulesetRule := { type := "non_fast_forward" }

/-- `NewCommitMessagePatternRule`. -/
def NewCommitMessagePatternRule (pattern : RulePatternParameters) : RulesetRule :=
  { type := "commit_message_pattern", parameters := some (.pattern pattern) }

/-- `NewCommitAuthorEmailPatternRule`. -/
def NewCommitAuthorEmailPatternRule (pattern : RulePatternParameters) : RulesetRule :=
  { type := "commit_author_email_pattern", parameters := some (.pattern pattern) }

/-- `NewCommitterEmailPatternRule`. -/
def NewCommitterEmailPatternRule (pattern : RulePatternParameters) : RulesetRule :=
  { type := "committer_email_pattern", parameters := some (.pattern pattern) }

/-- `NewBranchNamePatternRule`. -/
def NewBranchNamePatternRule (pattern : RulePatternParameters) : RulesetRule :=
  { type := "branch_name_pattern", parameters := some (.pattern pattern) }

/-- `NewTagNamePatternRule`. -/
def NewTagNamePatternRule (pattern : RulePatternParameters) : RulesetRule :=
  { type := "tag_name_pattern", parameters := some (.pattern pattern) }

/-! ### Events and `PushEvent` (`src/github/events.go`) -/

/-- Modelled from the spec: the timestamp codec (spec §2, "Unix-epoch-or-
RFC3339 timestamps") is not under `src/`; a timestamp is carried as its
wire-format string, which is all the code under study does with one. -/
structure Timestamp where
  wire : String := ""
deriving DecidableEq, Repr

/-- `Repository` (repos.go lines 24-36). -/
structure Repository where
  id : Int := 0
  owner : Option User := none
  name : String := ""
  description : String := ""
  createdAt : Option Timestamp := none
  pushedAt : Option Timestamp := none
  updatedAt : Option Timestamp := none
  hasIssues : Option Bool := none
  hasWiki : Option Bool := none
deriving DecidableEq, Repr

/-- `PushCommitAuthor` (events.go lines 72-75). -/
structure PushCommitAuthor where
  name : String := ""
  email : String := ""
deriving DecidableEq, Repr

/-- `PushCommit` (events.go lines 62-68). -/
structure PushCommit where
  sha : String := ""
  message : String := ""
  author : PushCommitAuthor := {}
  url : String := ""
  distinct : Bool := false
deriving DecidableEq, Repr

/-- `PushEvent` (events.go lines 53-59).  Note the struct tags in the source:
`Ref` is tagged `json:"ref,omitempty"` and `Size` is *also* tagged
`json:"ref,omitempty"`. -/
structure PushEvent where
  pushID : Int := 0
  head : String := ""
  ref : String := ""
  size : Int := 0
  commits : List PushCommit := []
deriving DecidableEq, Repr

/-- Marshal `PushCommitAuthor` (both fields `omitempty`). -/
def marshalPushCommitAuthor (a : PushCommitAuthor) : Json :=
  .obj ((if a.name = "" then [] else [("name", .str a.name)]) ++
        (if a.email = "" then [] else [("email", .str a.email)]))

/-- Marshal `PushCommit`.  `Author` is a non-pointer struct, which
`encoding/json` never treats as empty, so its `omitempty` tag has no effect
and the key is always emitted; `Distinct` has no `omitempty`. -/
def marshalPushCommit (c : PushCommit) : Json :=
  .obj ((if c.sha = "" then [] else [("sha", .str c.sha)]) ++
        (if c.message = "" then [] else [("message", .str c.message)]) ++
        [("author", marshalPushCommitAuthor c.author)] ++
        (if c.url = "" then [] else [("url", .str c.url)]) ++
        [("distinct", .bool c.distinct)])

/-- Marshal `PushEvent`.  Because `Ref` and `Size` are both tagged
`json:"ref"` at the same nesting depth and neither tag dominates,
`encoding/json` resolves the conflict by dropping *both* fields: no `ref`
(and no `size`) key is ever emitted. -/
def marshalPushEvent (ev : PushEvent) : Json :=
  .obj ((if ev.pushID = 0 then [] else [("push_id", .num ev.pushID)]) ++
        (if ev.head = "" then [] else [("head", .str ev.head)]) ++
        (if ev.commits = [] then [] else
          [("commits", .arr (ev.commits.map marshalPushCommit))]))

/-- Decode `PushCommitAuthor`. -/
def decodePushCommitAuthor (j : Json) : Except String PushCommitAuthor := do
  match j with
  | .null => .ok {}
  | .obj fs =>
    let name ← getString (lookupField fs "name")
    let email ← getString (lookupField fs "email")
    .ok { name := name, email := email }
  | _ => .error "json: cannot unmarshal value into Go value of type github.PushCommitAuthor"

/-- Decode `PushCommit`. -/
def decodePushCommit (j : Json) : Except String PushCommit := do
  match j with
  | .null => .ok {}
  | .obj fs =>
    let sha ← getString (lookupField fs "sha")
    let message ← getString (lookupField fs "message")
    let author ←
      match lookupField fs "author" with
      | none => .ok ({} : PushCommitAuthor)
      | some j => decodePushCommitAuthor j
    let url ← getString (lookupField fs "url")
    let distinct ← getBool (lookupField fs "distinct")
    .ok { sha := sha, message := message, author := author, url := url,
          distinct := distinct }
  | _ => .error "json: cannot unmarshal value into Go value of type github.PushCommit"

/-- Decode `PushEvent`.  The duplicate `json:"ref"` tags on `Ref` and `Size`
make both fields invisible to `encoding/json` in decoding as well: a `ref`
key in the input matches two conflicting fields and is ignored, and no field
answers to the key `size`, so after any decode `Ref` and `Size` keep their
zero values. -/
def decodePushEvent (j : Json) : Except String PushEvent := do
  match j with
  | .null => .ok {}
  | .obj fs =>
    let pushID ← getInt (lookupField fs "push_id")
    let head ← getString (lookupField fs "head")
    let commits ← getListWith decodePushCommit (lookupField fs "commits")
    .ok { pushID := pushID, head := head, commits := commits }
  | _ => .error "json: cannot unmarshal value into Go value of type github.PushEvent"

/-- `Event` (events.go lines 26-35).  `RawPayload json.RawMessage` holds raw
bytes; the embedding carries their parse result, `none` when the bytes are
absent (`nil`) or not valid JSON. -/
structure Event where
  type : String := ""
  public : Bool := false
  rawPayload : Option Json := none
  repo : Option Repository := none
  actor : User := {}
  org : Option Organization := none
  createdAt : Option Timestamp := none
  id : String := ""

/-- The parsed payload: a typed `*PushEvent` for the recognized event type,
otherwise the generic decode of the raw JSON into `interface{}`. -/
inductive PayloadValue where
  | push (ev : PushEvent)
  | generic (j : Json)

/-- What `Event.Payload` produces: either the parsed payload value or a
panic (the method calls `panic(err.Error())` on any unmarshal error). -/
inductive PayloadResult where
  | ok (v : PayloadValue)
  | panicked (msg : String)

/-- `Event.Payload` (events.go lines 39-48): for `"PushEvent"` the payload is
decoded into a fresh `*PushEvent`, otherwise generically into a `nil`
`interface{}` (which succeeds for every valid JSON value); any
`json.Unmarshal` error — in particular the "unexpected end of JSON input"
produced for absent or malformed payload bytes — is turned into a panic. -/
def Event.payload (e : Event) : PayloadResult :=
  match e.rawPayload with
  | none => .panicked "unexpected end of JSON input"
  | some j =>
    if e.type = "PushEvent" then
      match decodePushEvent j with
      | .ok ev => .ok (.push ev)
      | .error msg => .panicked msg
    else
      .ok (.generic j)

/-! ### URL query building (`net/url.Values` as used by
`src/github/activity_star.go`, `src/github/repos.go` and
`src/unnamed/part_004`)

`url.Values` is a map from key to a list of values; `Encode` sorts the keys
and emits `key=value` pairs joined by `&`, percent-escaping both sides in
query mode.  The sources only put ASCII keys and values into these maps, and
the embedding escapes per character (Go escapes per UTF-8 byte, which agrees
on ASCII). -/

/-- Characters Go's query escaping leaves unescaped: ASCII alphanumerics and
`-_.~`. -/
def isUnreservedQueryChar (c : Char) : Bool :=
  c.isUpper || c.isLower || c.isDigit || c == '-' || c == '_' || c == '.' || c == '~'

/-- One uppercase hexadecimal digit. -/
def hexDigit (n : Nat) : Char :=
  if n < 10 then Char.ofNat ('0'.toNat + n)
  else Char.ofNat ('A'.toNat + (n - 10))

/-- `url.QueryEscape` on one character: unreserved characters pass through,
a space becomes `+`, anything else becomes `%XX`. -/
def queryEscapeChar (c : Char) : String :=
  if isUnreservedQueryChar c then String.singleton c
  else if c = ' ' then "+"
  else "%" ++ String.singleton (hexDigit (c.toNat / 16 % 16)) ++
    String.singleton (hexDigit (c.toNat % 16))

/-- `url.QueryEscape`. -/
def queryEscape (s : String) : String :=
  s.toList.foldr (fun c acc => queryEscapeChar c ++ acc) ""

/-- `url.Values`: insertion-ordered key/value-list pairs with unique keys
(the order is irrelevant to `Encode`, which sorts). -/
def Values := List (String × List String)

/-- `Values.Add`: append one value to a key's list, creating the key if
needed. -/
def valuesAdd (vs : Values) (k v : String) : Values :=
  match vs with
  | [] => [(k, [v])]
  | (k', xs) :: rest =>
    if k' = k then (k', xs ++ [v]) :: rest else (k', xs) :: valuesAdd rest k v

/-- The values stored under a key (empty when the key is absent). -/
def valuesGet (vs : Values) (k : String) : List String :=
  match vs with
  | [] => []
  | (k', xs) :: rest => if k' = k then xs else valuesGet rest k

/-- Lexicographic character-wise comparison of strings, the order
`sort.Strings` uses (byte-wise in Go, which agrees character-wise on the
ASCII keys and values these sources produce). -/
def charListLe : List Char → List Char → Bool
  | [], _ => true
  | _ :: _, [] => false
  | a :: as, b :: bs =>
    if a.toNat < b.toNat then true
    else if b.toNat < a.toNat then false
    else charListLe as bs

/-- String comparison for key sorting. -/
def strLe (a b : String) : Bool := charListLe a.toList b.toList

/-- Insert one entry into a key-sorted list of entries. -/
def insertByKey (p : String × List String) :
    List (String × List String) → List (String × List String)
  | [] => [p]
  | q :: qs => if strLe p.1 q.1 then p :: q :: qs else q :: insertByKey p qs

/-- Sort entries by key (`sort.Strings` over the map's keys). -/
def sortByKey (vs : List (String × List String)) : List (String × List String) :=
  vs.foldr insertByKey []

/-- `url.Values.Encode`: keys in sorted order, each value as
`escapedKey=escapedValue`, all joined with `&`. -/
def valuesEncode (vs : Values) : String :=
  let parts := (sortByKey vs).foldr
    (fun p acc => p.2.map (fun v => queryEscape p.1 ++ "=" ++ queryEscape v) ++ acc) []
  String.intercalate "&" parts

/-- `ActivityListStarredOptions` (activity_star.go lines 16-27). -/
structure ActivityListStarredOptions where
  sort : String := ""
  direction : String := ""
  page : Int := 0
deriving DecidableEq, Repr

/-- The URL built by `ActivityService.ListStarred` (activity_star.go lines
33-47) before it is handed to `NewRequest`. -/
def listStarredURL (user : String) (opt : Option ActivityListStarredOptions) : String :=
  let u := if user ≠ "" then "users/" ++ user ++ "/starred" else "user/starred"
  match opt with
  | none => u
  | some o =>
    u ++ "?" ++ valuesEncode
      [("sort", [o.sort]), ("direction", [o.direction]), ("page", [toString o.page])]

/-- `RepositoryListOptions` (repos.go lines 40-55). -/
structure RepositoryListOptions where
  type : String := ""
  sort : String := ""
  direction : String := ""
  page : Int := 0
deriving DecidableEq, Repr

/-- The URL built by `RepositoriesService.List` (repos.go lines 61-76)
before it is handed to `NewRequest`. -/
def reposListURL (user : String) (opt : Option RepositoryListOptions) : String :=
  let u := if user ≠ "" then "users/" ++ user ++ "/repos" else "user/repos"
  match opt with
  | none => u
  | some o =>
    u ++ "?" ++ valuesEncode
      [("type", [o.type]), ("sort", [o.sort]), ("direction", [o.direction]),
       ("page", [toString o.page])]

/-- `SearchOptions` (part_004 lines 24-47). -/
structure SearchOptions where
  sort : String := ""
  order : String := ""
  page : Int := 0
  perPage : Int := 0
  textMatch : Bool := false
deriving DecidableEq, Repr

/-- The `url.Values` built by `SearchService.search` (part_004 lines
113-129): `q` always present, the optional parameters added only when their
field is non-default. -/
def searchValues (query : String) (opt : Option SearchOptions) : Values :=
  let params : Values := [("q", [query])]
  match opt with
  | none => params
  | some o =>
    let params := if o.sort ≠ "" then valuesAdd params "sort" o.sort else params
    let params := if o.order ≠ "" then valuesAdd params "order" o.order else params
    let params := if o.page > 0 then valuesAdd params "page" (toString o.page) else params
    if o.perPage > 0 then valuesAdd params "per_page" (toString o.perPage) else params

/-- The URL built by `SearchService.search` (part_004 line 130):
`search/<type>?<encoded params>`. -/
def searchURL (searchType query : String) (opt : Option SearchOptions) : String :=
  "search/" ++ searchType ++ "?" ++ valuesEncode (searchValues query opt)

/-! ### The request/response pipeline (`Client.NewRequest` / `Client.Do`)

Modelled from the spec: `Client`, `Client.Do` and `CheckResponse` are not
under `src/` (only their callers are).  The model follows spec §4.2/§7 —
status classification first (2xx passes, anything else is an error carrying
the status), then, when a decode target was supplied, a JSON decode of the
body into it.  For the decode of an *empty* 2xx body the spec's §4.2 and the
in-`src/` documentation of the statistics methods disagree; the model follows
the code's own documentation ("this method will return a non-nil error and a
status code of 202", gists_test.go lines 373-376 and the twin comments on
`ListCommitActivity`/`ListParticipation`), which is the behaviour of a JSON
decoder handed an empty body: an "unexpected end of JSON input" error with
the target untouched. -/

/-- The raw HTTP response handed to `Do`: status code, headers, and the body,
carried as its parse result (`none` = empty or absent body). -/
structure HTTPResponse where
  statusCode : Nat
  headers : List (String × String) := []
  body : Option Json := none

/-- The `*github.Response` metadata returned to callers (status and headers;
the wrapped response). -/
structure Response where
  statusCode : Nat
  headers : List (String × String) := []
deriving DecidableEq, Repr

/-- Modelled from the spec: `CheckResponse` — any status in 200..299 is
success, anything else is an error carrying the status (spec §4.2). -/
def checkResponse (r : HTTPResponse) : Option String :=
  if 200 ≤ r.statusCode ∧ r.statusCode ≤ 299 then none
  else some ("unexpected status code: " ++ toString r.statusCode)

/-- Modelled from the spec: `Client.Do` with a non-`nil` decode target —
classify the status, then decode the body into the target; an empty body
yields the JSON decoder's "unexpected end of JSON input" error; on every
path the target's (possibly untouched) value, the response metadata and the
error are handed back. -/
def clientDo (r : HTTPResponse) (dec : Json → Except String α) (target : α) :
    α × Response × Option String :=
  let response : Response := { statusCode := r.statusCode, headers := r.headers }
  match checkResponse r with
  | some e => (target, response, some e)
  | none =>
    match r.body with
    | none => (target, response, some "unexpected end of JSON input")
    | some j =>
      match dec j with
      | .ok v => (v, response, none)
      | .error e => (target, response, some e)

/-! ### Repository statistics (`ListContributorsStats`,
`ListCommitActivity`, `ListParticipation` in `src/github/gists_test.go`'s
second file) -/

/-- Modelled from the spec: the `Contributor` DTO (not under `src/`). -/
structure Contributor where
  login : Option String := none
  id : Option Int := none
deriving DecidableEq, Repr

/-- `WeeklyHash` (stats file lines 365-370). -/
structure WeeklyHash where
  week : Option Int := none
  additions : Option Int := none
  deletions : Option Int := none
  commits : Option Int := none
deriving DecidableEq, Repr

/-- `ContributorStats` (stats file lines 357-361). -/
structure ContributorStats where
  author : Option Contributor := none
  total : Option Int := none
  weeks : List WeeklyHash := []
deriving DecidableEq, Repr

/-- `WeeklyCommitActivity` (stats file lines 397-401). -/
structure WeeklyCommitActivity where
  days : List Int := []
  total : Option Int := none
  week : Option Int := none
deriving DecidableEq, Repr

/-- `RepositoryParticipation` (stats file lines 432-435). -/
structure RepositoryParticipation where
  all : List Int := []
  owner : List Int := []
deriving DecidableEq, Repr

/-- Decode a `[]int` field. -/
def getIntList (v : Option Json) : Except String (List Int) :=
  getListWith
    (fun j => match j with
      | .num n => .ok n
      | _ => .error "json: cannot unmarshal value into Go field of type int") v

/-- Decode `Contributor`. -/
def decodeContributor (j : Json) : Except String Contributor := do
  match j with
  | .null => .ok {}
  | .obj fs =>
    let login ← getOptString (lookupField fs "login")
    let id ← getOptInt (lookupField fs "id")
    .ok { login := login, id := id }
  | _ => .error "json: cannot unmarshal value into Go value of type github.Contributor"

/-- Decode `WeeklyHash`. -/
def decodeWeeklyHash (j : Json) : Except String WeeklyHash := do
  match j with
  | .null => .ok {}
  | .obj fs =>
    let w ← getOptInt (lookupField fs "w")
    let a ← getOptInt (lookupField fs "a")
    let d ← getOptInt (lookupField fs "d")
    let c ← getOptInt (lookupField fs "c")
    .ok { week := w, additions := a, deletions := d, commits := c }
  | _ => .error "json: cannot unmarshal value into Go value of type github.WeeklyHash"

/-- Decode `ContributorStats`. -/
def decodeContributorStats (j : Json) : Except String ContributorStats := do
  match j with
  | .null => .ok {}
  | .obj fs =>
    let author ←
      match lookupField fs "author" with
      | none => .ok none
      | some .null => .ok none
      | some aj => (decodeContributor aj).map some
    let total ← getOptInt (lookupField fs "total")
    let weeks ← getListWith decodeWeeklyHash (lookupField fs "weeks")
    .ok { author := author, total := total, weeks := weeks }
  | _ => .error "json: cannot unmarshal value into Go value of type github.ContributorStats"

/-- Decode the `*[]ContributorStats` target of `ListContributorsStats`. -/
def decodeContributorStatsList (j : Json) : Except String (List ContributorStats) :=
  getListWith decodeContributorStats (some j)

/-- Decode `WeeklyCommitActivity`. -/
def decodeWeeklyCommitActivity (j : Json) : Except String WeeklyCommitActivity := do
  match j with
  | .null => .ok {}
  | .obj fs =>
    let days ← getIntList (lookupField fs "days")
    let total ← getOptInt (lookupField fs "total")
    let week ← getOptInt (lookupField fs "week")
    .ok { days := days, total := total, week := week }
  | _ => .error "json: cannot unmarshal value into Go value of type github.WeeklyCommitActivity"

/-- Decode the `*[]WeeklyCommitActivity` target of `ListCommitActivity`. -/
def decodeWeeklyCommitActivityList (j : Json) : Except String (List WeeklyCommitActivity) :=
  getListWith decodeWeeklyCommitActivity (some j)

/-- Decode `RepositoryParticipation`. -/
def decodeRepositoryParticipation (j : Json) : Except String RepositoryParticipation := do
  match j with
  | .null => .ok {}
  | .obj fs =>
    let all ← getIntList (lookupField fs "all")
    let owner ← getIntList (lookupField fs "owner")
    .ok { all := all, owner := owner }
  | _ => .error "json: cannot unmarshal value into Go value of type github.RepositoryParticipation"

/-- `RepositoriesService.ListContributorsStats` (stats file lines 379-393):
build the request (`newReqErr` is `NewRequest`'s outcome), run `Do` with a
fresh `*[]ContributorStats` target, and forward `(stats, resp, err)` —
returning `nil` stats alongside the response when `Do` errs. -/
def listContributorsStats (newReqErr : Option String) (r : HTTPResponse) :
    Option (List ContributorStats) × Option Response × Option String :=
  match newReqErr with
  | some e => (none, none, some e)
  | none =>
    let (stats, resp, err) := clientDo r decodeContributorStatsList []
    match err with
    | some e => (none, some resp, some e)
    | none => (some stats, some resp, none)

/-- `RepositoriesService.ListCommitActivity` (stats file lines 413-427). -/
def listCommitActivity (newReqErr : Option String) (r : HTTPResponse) :
    Option (List WeeklyCommitActivity) × Option Response × Option String :=
  match newReqErr with
  | some e => (none, none, some e)
  | none =>
    let (act, resp, err) := clientDo r decodeWeeklyCommitActivityList []
    match err with
    | some e => (none, some resp, some e)
    | none => (some act, some resp, none)

/-- `RepositoriesService.ListParticipation` (stats file lines 452-466). -/
def listParticipation (newReqErr : Option String) (r : HTTPResponse) :
    Option RepositoryParticipation × Option Response × Option String :=
  match newReqErr with
  | some e => (none, none, some e)
  | none =>
    let (p, resp, err) := clientDo r decodeRepositoryParticipation {}
    match err with
    | some e => (none, some resp, some e)
    | none => (some p, some resp, none)

/-! ### Operation return shapes (`CopilotService.GetCopilotBilling` vs.
`PullRequestsService.List`) -/

/-- `CopilotSeatBreakdown` (copilot.go lines 29-36). -/
structure CopilotSeatBreakdown where
  total : Int := 0
  addedThisCycle : Int := 0
  pendingCancellation : Int := 0
  pendingInvitation : Int := 0
  activeThisCycle : Int := 0
  inactiveThisCycle : Int := 0
deriving DecidableEq, Repr

/-- `CopilotOrganizationDetails` (copilot.go lines 21-26). -/
structure CopilotOrganizationDetails where
  seatBreakdown : Option CopilotSeatBreakdown := none
  publicCodeSuggestions : String := ""
  copilotChat : String := ""
  seatManagementSetting : String := ""
deriving DecidableEq, Repr

/-- Decode `CopilotSeatBreakdown`. -/
def decodeCopilotSeatBreakdown (j : Json) : Except String CopilotSeatBreakdown := do
  match j with
  | .null => .ok {}
  | .obj fs =>
    let total ← getInt (lookupField fs "total")
    let added ← getInt (lookupField fs "added_this_cycle")
    let pc ← getInt (lookupField fs "pending_cancellation")
    let pi ← getInt (lookupField fs "pending_invitation")
    let active ← getInt (lookupField fs "active_this_cycle")
    let inactive ← getInt (lookupField fs "inactive_this_cycle")
    .ok { total := total, addedThisCycle := added, pendingCancellation := pc,
          pendingInvitation := pi, activeThisCycle := active,
          inactiveThisCycle := inactive }
  | _ => .error "json: cannot unmarshal value into Go value of type github.CopilotSeatBreakdown"

/-- Decode the `*CopilotOrganizationDetails` target of `GetCopilotBilling`
(a `**CopilotOrganizationDetails` in Go; `null` leaves the pointer `nil`). -/
def decodeCopilotOrganizationDetails (j : Json) :
    Except String (Option CopilotOrganizationDetails) := do
  match j with
  | .null => .ok none
  | .obj fs =>
    let sb ←
      match lookupField fs "seat_breakdown" with
      | none => .ok none
      | some .null => .ok none
      | some bj => (decodeCopilotSeatBreakdown bj).map some
    let pcs ← getString (lookupField fs "public_code_suggestions")
    let chat ← getString (lookupField fs "copilot_chat")
    let sms ← getString (lookupField fs "seat_management_setting")
    .ok (some { seatBreakdown := sb, publicCodeSuggestions := pcs,
                copilotChat := chat, seatManagementSetting := sms })
  | _ => .error "json: cannot unmarshal value into Go value of type github.CopilotOrganizationDetails"

/-- `CopilotService.GetCopilotBilling` (copilot.go lines 147-162): on a
`NewRequest` error, `(nil, nil, err)`; on a `Do` error, `(nil, resp, err)`;
otherwise `(details, resp, nil)` — the response metadata accompanies the
error on every post-send path. -/
def getCopilotBilling (newReqErr : Option String) (r : HTTPResponse) :
    Option CopilotOrganizationDetails × Option Response × Option String :=
  match newReqErr with
  | some e => (none, none, some e)
  | none =>
    let (details, resp, err) := clientDo r decodeCopilotOrganizationDetails none
    match err with
    | some e => (none, some resp, some e)
    | none => (details, some resp, none)

/-- `PullRequest` (actions_variables.go lines 316-336). -/
structure PullRequest where
  number : Int := 0
  state : String := ""
  title : String := ""
  body : String := ""
  createdAt : Option Timestamp := none
  updatedAt : Option Timestamp := none
  closedAt : Option Timestamp := none
  mergedAt : Option Timestamp := none
  user : Option User := none
  merged : Bool := false
  mergeable : Bool := false
  mergedBy : Option User := none
  comments : Int := 0
  commits : Int := 0
  additions : Int := 0
  deletions : Int := 0
  changedFiles : Int := 0
deriving DecidableEq, Repr

/-- Decode a `*time.Time` field (modelled from the spec's timestamp codec:
the wire string is retained; absent key and `null` leave the pointer `nil`). -/
def getOptTimestamp (v : Option Json) : Except String (Option Timestamp) :=
  (getOptString v).map (Option.map Timestamp.mk)

/-- Decode a `*User` field. -/
def getOptUser (v : Option Json) : Except String (Option User) :=
  match v with
  | none => .ok none
  | some .null => .ok none
  | some j => (decodeUser j).map some

/-- Decode `PullRequest`. -/
def decodePullRequest (j : Json) : Except String PullRequest := do
  match j with
  | .null => .ok {}
  | .obj fs =>
    let number ← getInt (lookupField fs "number")
    let state ← getString (lookupField fs "state")
    let title ← getString (lookupField fs "title")
    let body ← getString (lookupField fs "body")
    let createdAt ← getOptTimestamp (lookupField fs "created_at")
    let updatedAt ← getOptTimestamp (lookupField fs "updated_at")
    let closedAt ← getOptTimestamp (lookupField fs "closed_at")
    let mergedAt ← getOptTimestamp (lookupField fs "merged_at")
    let user ← getOptUser (lookupField fs "user")
    let merged ← getBool (lookupField fs "merged")
    let mergeable ← getBool (lookupField fs "mergeable")
    let mergedBy ← getOptUser (lookupField fs "merged_by")
    let comments ← getInt (lookupField fs "comments")
    let commits ← getInt (lookupField fs "commits")
    let additions ← getInt (lookupField fs "additions")
    let deletions ← getInt (lookupField fs "deletions")
    let changedFiles ← getInt (lookupField fs "changed_files")
    .ok { number := number, state := state, title := title, body := body,
          createdAt := createdAt, updatedAt := updatedAt, closedAt := closedAt,
          mergedAt := mergedAt, user := user, merged := merged,
          mergeable := mergeable, mergedBy := mergedBy, comments := comments,
          commits := commits, additions := additions, deletions := deletions,
          changedFiles := changedFiles }
  | _ => .error "json: cannot unmarshal value into Go value of type github.PullRequest"

/-- Decode the `*[]PullRequest` target of `PullRequestsService.List`. -/
def decodePullRequestList (j : Json) : Except String (List PullRequest) :=
  getListWith decodePullRequest (some j)

/-- Everything an operation hands back to its caller, in one shape: the
decoded value, the response metadata the caller can inspect, and the error.
Operations whose Go signature carries no `*Response` give their caller no
response metadata, i.e. `resp = none`. -/
structure OpReturn (α : Type) where
  value : α
  resp : Option Response
  err : Option String

/-- `PullRequestsService.List` (actions_variables.go lines 356-375): its Go
signature is `([]PullRequest, error)` — the `*Response` from `Do` is
discarded (`_, err = s.client.Do(req, pulls)`), so the caller-visible
response metadata is always `none`. -/
def pullRequestsList (newReqErr : Option String) (r : HTTPResponse) :
    OpReturn (List PullRequest) :=
  match newReqErr with
  | some e => { value := [], resp := none, err := some e }
  | none =>
    let (pulls, _, err) := clientDo r decodePullRequestList []
    { value := pulls, resp := none, err := err }

/-! ## Theorems -/

/-- C2: the spec's round-trip property — "encoding a body value then decoding
the same JSON into an equivalent target structure reproduces field-for-field
equal data (for every exported field)" — fails for `PushEvent`: `Ref` and
`Size` are both tagged `json:"ref,omitempty"` (events.go lines 56-57; `Size`
plainly meant `json:"size"`), `encoding/json` drops both conflicting fields,
and the round-trip of a `PushEvent` with `Ref = "refs/heads/main"`, `Size = 2`
comes back with `Ref = ""`, `Size = 0`. -/
theorem pushEvent_roundtrip_loses_ref_and_size :
    decodePushEvent (marshalPushEvent
      { pushID := 1, head := "h", ref := "refs/heads/main", size := 2,
        commits := [{ sha := "s", distinct := true }] }) =
      .ok { pushID := 1, head := "h", ref := "", size := 0,
            commits := [{ sha := "s", distinct := true }] } ∧
    ({ pushID := 1, head := "h", ref := "", size := 0,
       commits := [{ sha := "s", distinct := true }] } : PushEvent) ≠
      { pushID := 1, head := "h", ref := "refs/heads/main", size := 2,
        commits := [{ sha := "s", distinct := true }] } := by
  exact ⟨rfl, by decide⟩

/-- C10: `Event.Payload` (events.go lines 39-48) panics on every payload that
is absent or not valid JSON — `json.Unmarshal` fails, and the method calls
`panic(err.Error())` instead of returning an error value, so it never returns
normally on malformed payload data. -/
theorem eventPayload_invalid_json_panics (e : Event) (h : e.rawPayload = none) :
    e.payload = .panicked "unexpected end of JSON input" := by
  unfold Event.payload
  rw [h]

/-- Witness for C10: a concrete event with a `nil` payload panics. -/
theorem eventPayload_invalid_json_panics_witness :
    Event.payload { type := "PushEvent", rawPayload := none } =
      .panicked "unexpected end of JSON input" :=
  eventPayload_invalid_json_panics _ rfl

/-- C3 counterexample: on a 202 response with an empty body,
`ListContributorsStats` returns a *non-nil* error (the claim says the caller
receives "status 202 with no error"). -/
theorem stats202_error_is_not_nil :
    listContributorsStats none { statusCode := 202 } =
      (none, some { statusCode := 202 }, some "unexpected end of JSON input") ∧
    (listContributorsStats none { statusCode := 202 }).2.2 ≠ none := by
  exact ⟨rfl, by decide⟩

/-- C3 (amended): on a 202 "still computing statistics" response with an
empty body, `Do` leaves the decode target untouched, and the statistics
methods (`ListContributorsStats`, `ListCommitActivity`, `ListParticipation`)
return status 202 together with a *non-nil* error — exactly the contract
their own doc comments state ("this method will return a non-nil error and a
status code of 202"). -/
theorem stats202_target_untouched_error_with_status :
    (∀ (α : Type) (hs : List (String × String)) (dec : Json → Except String α) (t : α),
        clientDo { statusCode := 202, headers := hs } dec t =
          (t, { statusCode := 202, headers := hs },
           some "unexpected end of JSON input")) ∧
    listContributorsStats none { statusCode := 202 } =
      (none, some { statusCode := 202 }, some "unexpected end of JSON input") ∧
    listCommitActivity none { statusCode := 202 } =
      (none, some { statusCode := 202 }, some "unexpected end of JSON input") ∧
    listParticipation none { statusCode := 202 } =
      (none, some { statusCode := 202 }, some "unexpected end of JSON input") := by
  refine ⟨fun α hs dec t => rfl, rfl, rfl, rfl⟩

/-- C5 counterexample: `ActivityService.ListStarred` and
`RepositoriesService.List`, handed a *non-nil* options struct whose fields
all hold their zero values, still emit every declared parameter — the URL
carries the query string `direction=&page=0&sort=` (plus `type=` for
`RepositoriesService.List`), not an empty one. -/
theorem defaultOptions_still_emit_query :
    listStarredURL "u" (some {}) = "users/u/starred?direction=&page=0&sort=" ∧
    reposListURL "u" (some {}) = "users/u/repos?direction=&page=0&sort=&type=" ∧
    (listStarredURL "u" (some {})).toList.contains '?' = true := by
  exact ⟨rfl, rfl, rfl⟩

/-- C5 (amended): only a `nil` options *pointer* yields a URL without a query
string; a non-`nil` options struct with all-default fields makes
`ListStarred` and `List` append every declared parameter with its default
value (`direction=&page=0&sort=`, and `type=` for repositories). -/
theorem defaultOptions_url_shapes (user : String) :
    listStarredURL user none =
      (if user ≠ "" then "users/" ++ user ++ "/starred" else "user/starred") ∧
    listStarredURL user (some {}) =
      (if user ≠ "" then "users/" ++ user ++ "/starred" else "user/starred") ++
        "?" ++ "direction=&page=0&sort=" ∧
    reposListURL user none =
      (if user ≠ "" then "users/" ++ user ++ "/repos" else "user/repos") ∧
    reposListURL user (some {}) =
      (if user ≠ "" then "users/" ++ user ++ "/repos" else "user/repos") ++
        "?" ++ "direction=&page=0&sort=&type=" := by
  exact ⟨rfl, rfl, rfl, rfl⟩

/-- C8: `RulesetRule.UnmarshalJSON` (part_002 lines 98-147), on any input
whose decoded rule type is not one of the fourteen recognized rule kinds,
resets the receiver completely — `Type = ""`, `Parameters = nil`, whatever
the receiver held before — and returns a non-nil error. -/
theorem rulesetRule_unknownType_resets_receiver
    (data : Json) (rsr : RulesetRule) (t : String)
    (h : decodeRuleType data = .ok t)
    (hmem : t ∉ ["creation", "deletion", "required_linear_history",
      "required_signatures", "non_fast_forward", "update",
      "required_deployments", "commit_message_pattern",
      "commit_author_email_pattern", "committer_email_pattern",
      "branch_name_pattern", "tag_name_pattern", "pull_request",
      "required_status_checks"]) :
    unmarshalRulesetRule data rsr =
      ({ type := "", parameters := none },
       some "rulesetRule.Type string is not yet implemented, unable to unmarshal") := by
  simp only [List.mem_cons, List.not_mem_nil, or_false, not_or] at hmem
  obtain ⟨h1, h2, h3, h4, h5, h6, h7, h8, h9, h10, h11, h12, h13, h14⟩ := hmem
  simp [unmarshalRulesetRule, h, h1, h2, h3, h4, h5, h6, h7, h8, h9, h10, h11,
    h12, h13, h14]

/-- Witness for C8: a concrete unrecognized rule type, decoded into a dirty
receiver, resets it and errors. -/
theorem rulesetRule_unknownType_resets_receiver_witness :
    unmarshalRulesetRule (.obj [("type", .str "workflows")])
        { type := "creation", parameters := some (.update {}) } =
      ({ type := "", parameters := none },
       some "rulesetRule.Type string is not yet implemented, unable to unmarshal") :=
  rulesetRule_unknownType_resets_receiver _ _ _ rfl (by decide)

/-- On every path through `Do`, the response metadata handed back is built
from the received response's status and headers. -/
theorem clientDo_resp (r : HTTPResponse) (dec : Json → Except String α) (t : α) :
    (clientDo r dec t).2.1 = { statusCode := r.statusCode, headers := r.headers } := by
  unfold clientDo
  split
  · rfl
  · split
    · rfl
    · split <;> rfl

/-- C4 counterexample: `PullRequestsService.List` (actions_variables.go lines
356-375) discards the `*Response` from `Do` (`_, err = s.client.Do(req,
pulls)`) and its signature returns only `([]PullRequest, error)`, so on a 404
the caller gets a non-nil error but *no* response metadata — refuting "every
per-resource operation ... also returns the response metadata". -/
theorem pullRequestsList_drops_responseMeta :
    (pullRequestsList none { statusCode := 404 }).err =
      some "unexpected status code: 404" ∧
    (pullRequestsList none { statusCode := 404 }).resp = none := by
  exact ⟨rfl, rfl⟩

/-- C4 (amended): operations whose signature carries a `*Response` — such as
`CopilotService.GetCopilotBilling` — hand the response metadata back on every
post-send path, including alongside a non-nil error; but operations with
`(value, error)` signatures — such as `PullRequestsService.List` — discard
the response, so their callers never receive response metadata at all. -/
theorem responseMeta_depends_on_signature :
    (∀ r : HTTPResponse, (getCopilotBilling none r).2.1 =
        some { statusCode := r.statusCode, headers := r.headers }) ∧
    (∀ (newReqErr : Option String) (r : HTTPResponse),
        (pullRequestsList newReqErr r).resp = none) := by
  constructor
  · intro r
    unfold getCopilotBilling
    rcases h : clientDo r decodeCopilotOrganizationDetails none with ⟨details, resp, err⟩
    have hr : resp = { statusCode := r.statusCode, headers := r.headers } := by
      have := clientDo_resp r decodeCopilotOrganizationDetails none
      rw [h] at this
      exact this
    rcases err with _ | e <;> simp [h, hr]
  · intro newReqErr r
    rcases newReqErr with _ | e
    · unfold pullRequestsList
      rcases h : clientDo r decodePullRequestList [] with ⟨pulls, resp, err⟩
      rfl
    · rfl

/-- C7: for a non-nil `SearchOptions`, `SearchService.search` (part_004 lines
112-143) always carries `q=<query>`, adds `sort`/`order` only for a non-empty
string and `page`/`per_page` only for a strictly positive integer (defaults
are omitted, as the all-default encoding shows), and the URL is
`search/<type>?<encoded values>`. -/
theorem searchQuery_param_emission (searchType q : String) (o : SearchOptions) :
    valuesGet (searchValues q (some o)) "q" = [q] ∧
    valuesGet (searchValues q (some o)) "sort" =
      (if o.sort = "" then [] else [o.sort]) ∧
    valuesGet (searchValues q (some o)) "order" =
      (if o.order = "" then [] else [o.order]) ∧
    valuesGet (searchValues q (some o)) "page" =
      (if o.page > 0 then [toString o.page] else []) ∧
    valuesGet (searchValues q (some o)) "per_page" =
      (if o.perPage > 0 then [toString o.perPage] else []) ∧
    valuesEncode (searchValues q (some { textMatch := o.textMatch })) =
      "q=" ++ queryEscape q ∧
    searchURL searchType q (some o) =
      "search/" ++ searchType ++ "?" ++ valuesEncode (searchValues q (some o)) := by
  refine ⟨?_, ?_, ?_, ?_, ?_, rfl, rfl⟩ <;>
    by_cases hs : o.sort = "" <;> by_cases ho : o.order = "" <;>
      by_cases hp : o.page > 0 <;> by_cases hpp : o.perPage > 0 <;>
        simp [searchValues, valuesAdd, valuesGet, hs, ho, hp, hpp]

/-- C1: `CopilotSeatDetails.UnmarshalJSON` (copilot.go lines 66-118) on a
seat whose assignee object discriminates as `"User"`, `"Team"` or
`"Organization"`: the two-pass decode succeeds (given that the generic first
pass and the concrete second pass decode cleanly), the matching concrete
value is stored in `Assignee`, and exactly the matching one of `GetUser`,
`GetTeam`, `GetOrganization` returns it with `true` while the other two
return `(nil, false)`. -/
theorem copilotSeat_typed_assignee_dispatch
    (data : Json) (sd : CopilotSeatAlias) (v : List (String × Json))
    (hsd : decodeSeatAlias data = .ok sd) (hv : sd.assignee = some (.obj v)) :
    (∀ u, lookupField v "type" = some (.str "User") → decodeUser (.obj v) = .ok u →
      ∃ cp, unmarshalCopilotSeatDetails data = .ok cp ∧
        cp.assignee = some (.user u) ∧ cp.getUser = (some u, true) ∧
        cp.getTeam = (none, false) ∧ cp.getOrganization = (none, false)) ∧
    (∀ t, lookupField v "type" = some (.str "Team") → decodeTeam (.obj v) = .ok t →
      ∃ cp, unmarshalCopilotSeatDetails data = .ok cp ∧
        cp.assignee = some (.team t) ∧ cp.getTeam = (some t, true) ∧
        cp.getUser = (none, false) ∧ cp.getOrganization = (none, false)) ∧
    (∀ o, lookupField v "type" = some (.str "Organization") →
      decodeOrganization (.obj v) = .ok o →
      ∃ cp, unmarshalCopilotSeatDetails data = .ok cp ∧
        cp.assignee = some (.org o) ∧ cp.getOrganization = (some o, true) ∧
        cp.getUser = (none, false) ∧ cp.getTeam = (none, false)) := by
  refine ⟨?_, ?_, ?_⟩ <;> intro x hty hdec <;>
    simp only [unmarshalCopilotSeatDetails, hsd, hv, hty, hdec] <;>
    exact ⟨_, rfl, rfl, rfl, rfl, rfl⟩

/-- Witness for C1: concrete seat objects with each of the three assignee
discriminators decode to the matching variant with matching getters. -/
theorem copilotSeat_typed_assignee_dispatch_witness :
    (∃ cp, unmarshalCopilotSeatDetails
        (.obj [("assignee", .obj [("type", .str "User"), ("login", .str "bob")]),
               ("created_at", .str "2023-01-01")]) = .ok cp ∧
      cp.assignee = some (.user { login := some "bob", type := some "User" }) ∧
      cp.getUser = (some { login := some "bob", type := some "User" }, true) ∧
      cp.getTeam = (none, false) ∧ cp.getOrganization = (none, false)) ∧
    (∃ cp, unmarshalCopilotSeatDetails
        (.obj [("assignee", .obj [("type", .str "Team"), ("slug", .str "core")]),
               ("created_at", .str "2023-01-01")]) = .ok cp ∧
      cp.assignee = some (.team { slug := some "core" }) ∧
      cp.getTeam = (some { slug := some "core" }, true) ∧
      cp.getUser = (none, false) ∧ cp.getOrganization = (none, false)) ∧
    (∃ cp, unmarshalCopilotSeatDetails
        (.obj [("assignee", .obj [("type", .str "Organization"), ("login", .str "acme")]),
               ("created_at", .str "2023-01-01")]) = .ok cp ∧
      cp.assignee = some (.org { login := some "acme", type := some "Organization" }) ∧
      cp.getOrganization = (some { login := some "acme", type := some "Organization" }, true) ∧
      cp.getUser = (none, false) ∧ cp.getTeam = (none, false)) := by
  refine ⟨?_, ?_, ?_⟩
  · exact (copilotSeat_typed_assignee_dispatch
      (.obj [("assignee", .obj [("type", .str "User"), ("login", .str "bob")]),
             ("created_at", .str "2023-01-01")])
      { assignee := some (.obj [("type", .str "User"), ("login", .str "bob")]),
        createdAt := "2023-01-01" }
      [("type", .str "User"), ("login", .str "bob")] rfl rfl).1
      { login := some "bob", type := some "User" } rfl rfl
  · exact (copilotSeat_typed_assignee_dispatch
      (.obj [("assignee", .obj [("type", .str "Team"), ("slug", .str "core")]),
             ("created_at", .str "2023-01-01")])
      { assignee := some (.obj [("type", .str "Team"), ("slug", .str "core")]),
        createdAt := "2023-01-01" }
      [("type", .str "Team"), ("slug", .str "core")] rfl rfl).2.1
      { slug := some "core" } rfl rfl
  · exact (copilotSeat_typed_assignee_dispatch
      (.obj [("assignee", .obj [("type", .str "Organization"), ("login", .str "acme")]),
             ("created_at", .str "2023-01-01")])
      { assignee := some (.obj [("type", .str "Organization"), ("login", .str "acme")]),
        createdAt := "2023-01-01" }
      [("type", .str "Organization"), ("login", .str "acme")] rfl rfl).2.2
      { login := some "acme", type := some "Organization" } rfl rfl

/-- C9 counterexample: a seat whose assignee object carries the unrecognized
`"type"` value `5` does *not* make `CopilotSeatDetails.UnmarshalJSON` return
an error — the unchecked type assertion `v["type"].(string)` (copilot.go
line 92) panics instead. -/
theorem copilotSeat_nonstring_type_panics :
    unmarshalCopilotSeatDetails
        (.obj [("assignee", .obj [("type", .num 5)]), ("created_at", .str "t")]) =
      .panicked "interface conversion: interface \x7b\x7d is not string" ∧
    (unmarshalCopilotSeatDetails
        (.obj [("assignee", .obj [("type", .num 5)]), ("created_at", .str "t")])).isErr =
      false := by
  exact ⟨rfl, rfl⟩

/-- C9 (amended): given a seat whose generic first pass decodes, an assignee
that is absent or `null`, or not a JSON object, or an assignee object whose
`"type"` is missing or `null`, or an unrecognized *string*, makes
`CopilotSeatDetails.UnmarshalJSON` return a non-nil error; a non-string,
non-`null` `"type"` value instead panics on the unchecked type assertion.
Either way, a seat without a typed assignee object never decodes
successfully. -/
theorem copilotSeat_untyped_assignee_rejected
    (data : Json) (sd : CopilotSeatAlias) (hsd : decodeSeatAlias data = .ok sd) :
    (sd.assignee = none → ∃ m, unmarshalCopilotSeatDetails data = .err m) ∧
    (∀ j, sd.assignee = some j → (∀ v, j ≠ .obj v) →
      ∃ m, unmarshalCopilotSeatDetails data = .err m) ∧
    (∀ v, sd.assignee = some (.obj v) → lookupField v "type" = none →
      unmarshalCopilotSeatDetails data = .err "assignee type field is not set") ∧
    (∀ v, sd.assignee = some (.obj v) → lookupField v "type" = some .null →
      unmarshalCopilotSeatDetails data = .err "assignee type field is not set") ∧
    (∀ v t, sd.assignee = some (.obj v) → lookupField v "type" = some (.str t) →
      t ≠ "User" → t ≠ "Team" → t ≠ "Organization" →
      unmarshalCopilotSeatDetails data = .err ("unsupported assignee type " ++ t)) ∧
    (∀ v j, sd.assignee = some (.obj v) → lookupField v "type" = some j →
      j ≠ .null → (∀ s, j ≠ .str s) →
      ∃ m, unmarshalCopilotSeatDetails data = .panicked m) := by
  refine ⟨?_, ?_, ?_, ?_, ?_, ?_⟩
  · intro h
    refine ⟨"unsupported assignee type", ?_⟩
    simp only [unmarshalCopilotSeatDetails, hsd, h]
  · intro j hj hobj
    refine ⟨"unsupported assignee type", ?_⟩
    rcases j with _ | b | n | s | xs | fs
    · simp only [unmarshalCopilotSeatDetails, hsd, hj]
    · simp only [unmarshalCopilotSeatDetails, hsd, hj]
    · simp only [unmarshalCopilotSeatDetails, hsd, hj]
    · simp only [unmarshalCopilotSeatDetails, hsd, hj]
    · simp only [unmarshalCopilotSeatDetails, hsd, hj]
    · exact absurd rfl (hobj fs)
  · intro v hv hty
    simp only [unmarshalCopilotSeatDetails, hsd, hv, hty]
  · intro v hv hty
    simp only [unmarshalCopilotSeatDetails, hsd, hv, hty]
  · intro v t hv hty h1 h2 h3
    simp only [unmarshalCopilotSeatDetails, hsd, hv, hty]
    simp [h1, h2, h3]
  · intro v j hv hty hnull hstr
    refine ⟨"interface conversion: interface \x7b\x7d is not string", ?_⟩
    simp only [unmarshalCopilotSeatDetails, hsd, hv, hty]

/-- Witness for C9 (amended): concrete seats for the error branches — absent
assignee, string assignee, missing `"type"`, and unrecognized string type —
and the panic branch. -/
theorem copilotSeat_untyped_assignee_rejected_witness :
    (∃ m, unmarshalCopilotSeatDetails (.obj [("created_at", .str "t")]) = .err m) ∧
    (∃ m, unmarshalCopilotSeatDetails
        (.obj [("assignee", .str "bob"), ("created_at", .str "t")]) = .err m) ∧
    unmarshalCopilotSeatDetails
        (.obj [("assignee", .obj [("login", .str "bob")]), ("created_at", .str "t")]) =
      .err "assignee type field is not set" ∧
    unmarshalCopilotSeatDetails
        (.obj [("assignee", .obj [("type", .str "Robot")]), ("created_at", .str "t")]) =
      .err ("unsupported assignee type " ++ "Robot") ∧
    (∃ m, unmarshalCopilotSeatDetails
        (.obj [("assignee", .obj [("type", .bool true)]), ("created_at", .str "t")]) =
      .panicked m) := by
  refine ⟨?_, ?_, ?_, ?_, ?_⟩
  · exact (copilotSeat_untyped_assignee_rejected
      (.obj [("created_at", .str "t")]) { createdAt := "t" } rfl).1 rfl
  · exact (copilotSeat_untyped_assignee_rejected
      (.obj [("assignee", .str "bob"), ("created_at", .str "t")])
      { assignee := some (.str "bob"), createdAt := "t" } rfl).2.1
      (.str "bob") rfl (fun v h => Json.noConfusion h)
  · exact (copilotSeat_untyped_assignee_rejected
      (.obj [("assignee", .obj [("login", .str "bob")]), ("created_at", .str "t")])
      { assignee := some (.obj [("login", .str "bob")]), createdAt := "t" } rfl).2.2.1
      [("login", .str "bob")] rfl rfl
  · exact (copilotSeat_untyped_assignee_rejected
      (.obj [("assignee", .obj [("type", .str "Robot")]), ("created_at", .str "t")])
      { assignee := some (.obj [("type", .str "Robot")]), createdAt := "t" } rfl).2.2.2.2.1
      [("type", .str "Robot")] "Robot" rfl rfl (by decide) (by decide) (by decide)
  · exact (copilotSeat_untyped_assignee_rejected
      (.obj [("assignee", .obj [("type", .bool true)]), ("created_at", .str "t")])
      { assignee := some (.obj [("type", .bool true)]), createdAt := "t" } rfl).2.2.2.2.2
      [("type", .bool true)] (.bool true) rfl rfl
      (fun h => Json.noConfusion h) (fun s h => Json.noConfusion h)

/-- Decoding a marshalled `[]string` yields the original list. -/
theorem getStringList_map_str (l : List String) :
    getStringList (some (.arr (l.map Json.str))) = .ok l := by
  induction l with
  | nil => rfl
  | cons s ls ih =>
    simp only [getStringList, List.map_cons, List.foldr_cons] at ih ⊢
    rw [ih]

/-- Decoding a marshalled slice element-wise yields the original list, given
the element round-trip. -/
theorem getListWith_map_ok (dec : Json → Except String α) (m : α → Json)
    (h : ∀ b, dec (m b) = .ok b) (l : List α) :
    getListWith dec (some (.arr (l.map m))) = .ok l := by
  induction l with
  | nil => rfl
  | cons b bs ih =>
    simp only [getListWith, List.map_cons, List.foldr_cons] at ih ⊢
    rw [h b, ih]

/-- Element round-trip for `RuleRequiredStatusChecks`. -/
theorem ruleRequiredStatusChecks_roundtrip (c : RuleRequiredStatusChecks) :
    decodeRuleRequiredStatusChecks (marshalRuleRequiredStatusChecks c) = .ok c := by
  obtain ⟨ctx, iid⟩ := c
  cases iid <;> rfl

/-- C6: every rule built by a constructor of part_002 survives the
marshal/`RulesetRule.UnmarshalJSON` round-trip into a fresh receiver: the
five parameterless kinds come back with `Parameters = nil`, and each
parameterized kind comes back with `Parameters` decoded into the matching
concrete parameter struct with equal field values. -/
theorem rulesetRule_constructor_roundtrip :
    unmarshalRulesetRule (marshalRulesetRule NewCreationRule) {} =
      (NewCreationRule, none) ∧
    unmarshalRulesetRule (marshalRulesetRule NewDeletionRule) {} =
      (NewDeletionRule, none) ∧
    unmarshalRulesetRule (marshalRulesetRule NewRequiredLinearHistoryRule) {} =
      (NewRequiredLinearHistoryRule, none) ∧
    unmarshalRulesetRule (marshalRulesetRule NewRequiredSignaturesRule) {} =
      (NewRequiredSignaturesRule, none) ∧
    unmarshalRulesetRule (marshalRulesetRule NewNonFastForwardRule) {} =
      (NewNonFastForwardRule, none) ∧
    (∀ p, unmarshalRulesetRule (marshalRulesetRule (NewUpdateRule p)) {} =
      (NewUpdateRule p, none)) ∧
    (∀ p, unmarshalRulesetRule (marshalRulesetRule (NewRequiredDeploymentsRule p)) {} =
      (NewRequiredDeploymentsRule p, none)) ∧
    (∀ p, unmarshalRulesetRule (marshalRulesetRule (NewPullRequestRule p)) {} =
      (NewPullRequestRule p, none)) ∧
    (∀ p, unmarshalRulesetRule (marshalRulesetRule (NewRequiredStatusChecksRule p)) {} =
      (NewRequiredStatusChecksRule p, none)) ∧
    (∀ p, unmarshalRulesetRule (marshalRulesetRule (NewCommitMessagePatternRule p)) {} =
      (NewCommitMessagePatternRule p, none)) ∧
    (∀ p, unmarshalRulesetRule (marshalRulesetRule (NewCommitAuthorEmailPatternRule p)) {} =
      (NewCommitAuthorEmailPatternRule p, none)) ∧
    (∀ p, unmarshalRulesetRule (marshalRulesetRule (NewCommitterEmailPatternRule p)) {} =
      (NewCommitterEmailPatternRule p, none)) ∧
    (∀ p, unmarshalRulesetRule (marshalRulesetRule (NewBranchNamePatternRule p)) {} =
      (NewBranchNamePatternRule p, none)) ∧
    (∀ p, unmarshalRulesetRule (marshalRulesetRule (NewTagNamePatternRule p)) {} =
      (NewTagNamePatternRule p, none)) := by
  refine ⟨rfl, rfl, rfl, rfl, rfl, fun p => rfl, ?_, fun p => rfl, ?_, ?_, ?_, ?_, ?_, ?_⟩
  · intro p
    obtain ⟨l⟩ := p
    simp [unmarshalRulesetRule, marshalRulesetRule, NewRequiredDeploymentsRule,
      marshalRuleParameters, marshalRequiredDeploymentsParams, decodeRuleType,
      lookupField, getString, secondPassWith, decodeRequiredDeploymentsParams,
      getStringList_map_str, Except.map, bind, Except.bind, pure, Except.pure]
  · intro p
    obtain ⟨l, strict⟩ := p
    simp [unmarshalRulesetRule, marshalRulesetRule, NewRequiredStatusChecksRule,
      marshalRuleParameters, marshalRequiredStatusChecksParams, decodeRuleType,
      lookupField, getString, getBool, secondPassWith, decodeRequiredStatusChecksParams,
      getListWith_map_ok _ _ ruleRequiredStatusChecks_roundtrip,
      Except.map, bind, Except.bind, pure, Except.pure]
  all_goals
    intro p
    obtain ⟨name, negate, op, pat⟩ := p
    cases name <;> cases negate <;> rfl

end GoGithub
